import Mathlib

/-!
Verification of the two core components of the TF-NLP-Agent repository:
the natural-language requirement-extraction engine (internal/nlp/parser.go)
and the security rule scanner (internal/security, scanner source file).

Texts are modelled as lists of characters.  Go maps iterate in an
unspecified, per-loop randomised order; the taxonomy tables below are
fixed in the order of the Go map literals, every theorem proved about
provider or resource detection over them is insensitive to that choice
wherever the source's behaviour is order-independent, and ParseWith
additionally quantifies over the iteration orders (any permutation of the
map entries) to capture behaviour that does depend on the order.  Go's Unicode case folding and white-space classes are
modelled on the Latin-1 range, which covers every keyword and every input
appearing in the specification.  A Go runtime failure (out-of-range slice
index) is modelled by Option: none is an aborted computation.
-/

/-- Character list of a Lean string literal. -/
def strL (s : String) : List Char := s.toList

/-- Space test used by strings.TrimSpace (unicode.IsSpace on Latin-1):
tab, newline, vertical tab, form feed, carriage return, space, NEL, NBSP. -/
def isGoSpace (c : Char) : Bool :=
  c.toNat = 32 || c.toNat = 9 || c.toNat = 10 || c.toNat = 11 ||
  c.toNat = 12 || c.toNat = 13 || c.toNat = 133 || c.toNat = 160

/-- Space class of Go's regexp (Perl class): tab, newline, form feed,
carriage return, space. -/
def isRegexSpace (c : Char) : Bool :=
  c.toNat = 32 || c.toNat = 9 || c.toNat = 10 || c.toNat = 12 || c.toNat = 13

/-- Digit class of Go's regexp. -/
def isDigitCh (c : Char) : Bool := 48 ≤ c.toNat && c.toNat ≤ 57

/-- ASCII model of strings.ToLower: map A..Z to a..z, keep the rest. -/
def toLowerCh (c : Char) : Char :=
  if h : 65 ≤ c.toNat ∧ c.toNat ≤ 90 then
    Char.ofNatAux (c.toNat + 32) (Or.inl (by omega))
  else c

/-- strings.TrimSpace: drop white space from both ends. -/
def trimSpace (cs : List Char) : List Char :=
  ((cs.dropWhile isGoSpace).reverse.dropWhile isGoSpace).reverse

/-- Normalisation done at the top of Engine.Parse:
strings.ToLower (strings.TrimSpace input). -/
def normalizeText (cs : List Char) : List Char := (trimSpace cs).map toLowerCh

/-- Substring search: needle occurs somewhere in hay. -/
def containsSub (needle hay : List Char) : Bool :=
  (List.range (hay.length + 1)).any (fun i => needle.isPrefixOf (hay.drop i))

/-- strings.Contains (s, substr) for a keyword given as a string literal. -/
def containsStr (s : List Char) (substr : String) : Bool :=
  containsSub (strL substr) s

/-! ## NLP engine data model (internal/nlp/parser.go) -/

/-- Go struct nlp.Resource.  The Go field Type is called typ here because
Type is reserved in Lean; Properties is always the empty map in the source. -/
structure Resource where
  typ : String
  Name : String
  Properties : List (String × String)
  Attributes : List String
deriving DecidableEq

/-- Go struct nlp.ParsedInput. -/
structure ParsedInput where
  OriginalText : List Char
  CloudProvider : String
  Resources : List Resource
  Requirements : List String
  Intent : String
deriving DecidableEq

/-- Provider keyword taxonomy of NewEngine, in the order of the Go map
literal (Go map iteration order is unspecified; every claim proved below
about provider detection is independent of this order). -/
def cloudProviders : List (String × List String) :=
  [("aws", ["aws", "amazon", "ec2", "s3", "rds", "vpc", "lambda"]),
   ("azure", ["azure", "microsoft", "vm", "storage", "sql"]),
   ("gcp", ["gcp", "google", "compute", "storage", "cloud"])]

/-- Resource-category keyword taxonomy of NewEngine, in the order of the
Go map literal. -/
def resourceTypes : List (String × List String) :=
  [("compute", ["vm", "instance", "server", "compute", "ec2"]),
   ("storage", ["storage", "bucket", "s3", "blob", "disk"]),
   ("network", ["vpc", "network", "subnet", "security group", "firewall",
                "load balancer", "alb", "nlb"]),
   ("database", ["database", "db", "rds", "sql", "mysql", "postgres",
                 "mongodb"]),
   ("container", ["container", "kubernetes", "k8s", "docker", "ecs", "aks",
                  "gke"]),
   ("serverless", ["lambda", "function", "serverless", "azure functions",
                   "cloud functions"])]

/-- Iteration core of detectCloudProvider: first table entry with a keyword
contained in the input wins. -/
def detectFrom (t : List Char) : List (String × List String) → String
  | [] => "aws"
  | (name, kws) :: rest =>
    if kws.any (containsStr t) then name else detectFrom t rest

/-- Engine.detectCloudProvider. -/
def detectCloudProvider (t : List Char) : String := detectFrom t cloudProviders

/-- Engine.generateResourceName. -/
def generateResourceName (rt : String) : String :=
  if rt = "compute" then "main_instance"
  else if rt = "storage" then "main_storage"
  else if rt = "network" then "main_network"
  else if rt = "database" then "main_database"
  else if rt = "container" then "main_cluster"
  else if rt = "serverless" then "main_function"
  else "main_" ++ rt

/-- Engine.extractAttributes: category-specific attribute hints; the switch
has cases for compute, network and database only. -/
def extractAttributes (t : List Char) (rt : String) : List String :=
  if rt = "compute" then
    (if containsStr t "linux" || containsStr t "ubuntu" || containsStr t "centos"
     then ["os:linux"] else []) ++
    (if containsStr t "windows" then ["os:windows"] else [])
  else if rt = "network" then
    (if containsStr t "public" then ["access:public"] else []) ++
    (if containsStr t "private" then ["access:private"] else [])
  else if rt = "database" then
    (if containsStr t "mysql" then ["engine:mysql"] else []) ++
    (if containsStr t "postgres" then ["engine:postgresql"] else [])
  else []

/-- Engine.extractResources: one Resource per category whose keyword list
has a hit (the Go loop breaks after the first hit of a category). -/
def extractResources (t : List Char) : List Resource :=
  resourceTypes.filterMap (fun rt =>
    if rt.2.any (containsStr t) then
      some { typ := rt.1, Name := generateResourceName rt.1,
             Properties := [], Attributes := extractAttributes t rt.1 }
    else none)

/-- Security requirement keywords of Engine.extractRequirements. -/
def securityPatterns : List String :=
  ["secure", "security", "encrypted", "ssl", "tls", "https",
   "private", "public", "firewall", "access control"]

/-- Scalability requirement keywords of Engine.extractRequirements. -/
def scalabilityPatterns : List String :=
  ["scalable", "auto scaling", "high availability", "redundant",
   "multi-az", "multi-region", "load balanced"]

/-- Performance requirement keywords of Engine.extractRequirements. -/
def performancePatterns : List String :=
  ["fast", "performance", "optimized", "cached", "cdn"]

/-- One tagged requirement entry per matching keyword. -/
def taggedReqs (tag : String) (pats : List String) (t : List Char) : List String :=
  pats.filterMap (fun p => if containsStr t p then some (tag ++ p) else none)

/-- Intent word lists of Engine.determineIntent. -/
def createWords : List String := ["create", "setup", "build", "deploy", "provision"]

/-- Modify-intent word list. -/
def modifyWords : List String := ["update", "modify", "change", "scale", "resize"]

/-- Delete-intent word list. -/
def deleteWords : List String := ["delete", "remove", "destroy", "terminate"]

/-- Engine.determineIntent: create list first, then modify, then delete,
default create. -/
def determineIntent (t : List Char) : String :=
  if createWords.any (containsStr t) then "create"
  else if modifyWords.any (containsStr t) then "modify"
  else if deleteWords.any (containsStr t) then "delete"
  else "create"

/-! ## Numeric requirement extraction (Engine.extractNumericRequirements)

The four Go regular expressions all have the shape digits, optional
white space, a unit alternation, and (for the first pattern only) optional
white space and a noun alternation.  The first pattern has three capture
groups, the other three have two.  FindAllStringSubmatch returns, per
match, the full match followed by one entry per capture group. -/

/-- One numeric extractor: the unit alternatives, and for the
storage pattern also the noun alternatives. -/
structure NumPat where
  units : List String
  nouns : Option (List String)

/-- The four numeric extractors, in source order. -/
def numPatterns : List NumPat :=
  [{ units := ["gb", "tb", "mb"], nouns := some ["storage", "disk", "memory", "ram"] },
   { units := ["cpu", "core", "vcpu"], nouns := none },
   { units := ["instance", "server", "vm", "node"], nouns := none },
   { units := ["port", "ports"], nouns := none }]

/-- First alternative of an alternation that matches at the current
position (Go regexp prefers the earlier alternative). -/
def firstAlt (alts : List String) (cs : List Char) : Option String :=
  alts.find? (fun a => (strL a).isPrefixOf cs)

/-- Attempt to match one numeric extractor at the current position.  On
success, the submatch list (full match, then capture groups) and the rest
of the input after the match.  The leftmost-first semantics of Go regexp is
deterministic here: digits, the white-space runs and each alternation are
forced, because adjacent pieces draw from disjoint character classes. -/
def numMatchAt (p : NumPat) (cs : List Char) : Option (List String × List Char) :=
  let ds := cs.takeWhile isDigitCh
  if ds.isEmpty then none else
  let r1 := cs.drop ds.length
  let sp1 := r1.takeWhile isRegexSpace
  let r2 := r1.drop sp1.length
  match firstAlt p.units r2 with
  | none => none
  | some u =>
    let r3 := r2.drop (strL u).length
    match p.nouns with
    | none =>
      some ([String.mk (ds ++ sp1 ++ strL u), String.mk ds, u], r3)
    | some ns =>
      let sp2 := r3.takeWhile isRegexSpace
      let r4 := r3.drop sp2.length
      match firstAlt ns r4 with
      | none => none
      | some w =>
        some ([String.mk (ds ++ sp1 ++ strL u ++ sp2 ++ strL w),
               String.mk ds, u, w], r4.drop (strL w).length)

/-- Scan for all non-overlapping matches, resuming after each match
(FindAllStringSubmatch).  The fuel argument bounds the recursion; it is
initialised with the input length, which every step strictly consumes. -/
def findAllAux (p : NumPat) : Nat → List Char → List (List String)
  | 0, _ => []
  | _ + 1, [] => []
  | fuel + 1, c :: cs =>
    match numMatchAt p (c :: cs) with
    | some (m, rest) => m :: findAllAux p fuel rest
    | none => findAllAux p fuel cs

/-- All matches of one numeric extractor over the input. -/
def findAllSub (p : NumPat) (cs : List Char) : List (List String) :=
  findAllAux p cs.length cs

/-- Loop body over the matches of one extractor.  The Go source guards with
len(match) >= 3 and then reads match[1], match[2] and match[3]; reading an
index that does not exist is a Go runtime failure, modelled by none. -/
def numericSpecs : List (List String) → Option (List String)
  | [] => some []
  | m :: ms =>
    if m.length < 3 then numericSpecs ms
    else
      match m[1]?, m[2]?, m[3]? with
      | some a, some b, some c =>
        (numericSpecs ms).map
          (fun rest => ("Specification: " ++ a ++ " " ++ b ++ " " ++ c) :: rest)
      | _, _, _ => none

/-- Fold of numericSpecs over the extractor list, in source order; the
first runtime failure aborts the whole computation. -/
def numericFrom (t : List Char) : List NumPat → Option (List String)
  | [] => some []
  | p :: ps =>
    match numericSpecs (findAllSub p t) with
    | none => none
    | some rs =>
      match numericFrom t ps with
      | none => none
      | some rest => some (rs ++ rest)

/-- Engine.extractNumericRequirements. -/
def extractNumericRequirements (t : List Char) : Option (List String) :=
  numericFrom t numPatterns

/-- Engine.extractRequirements: security, scalability and performance
keyword requirements, then the numeric specifications. -/
def extractRequirements (t : List Char) : Option (List String) :=
  match extractNumericRequirements t with
  | none => none
  | some ns =>
    some (taggedReqs "Security: " securityPatterns t ++
          taggedReqs "Scalability: " scalabilityPatterns t ++
          taggedReqs "Performance: " performancePatterns t ++ ns)

/-- Engine.Parse: normalise, then fill every field of the record.  The
error value of the Go signature is always nil; none models the Go runtime
failure inside extractNumericRequirements, which prevents Parse from
returning at all. -/
def Parse (input : List Char) : Option ParsedInput :=
  let t := normalizeText input
  match extractRequirements t with
  | none => none
  | some reqs =>
    some { OriginalText := t, CloudProvider := detectCloudProvider t,
           Resources := extractResources t, Requirements := reqs,
           Intent := determineIntent t }

/-- Providers whose keyword list has at least one hit in the text, in
table order (used to state the provider-detection claims). -/
def matchingProviders (t : List Char) : List String :=
  (cloudProviders.filter (fun pr => pr.2.any (containsStr t))).map Prod.fst

/-- Engine.extractResources generalised over the iteration order of the
category table: Go randomises map iteration per range loop, so any
permutation of the table entries is an admissible order for one call. -/
def extractResourcesWith (rts : List (String × List String)) (t : List Char) :
    List Resource :=
  rts.filterMap (fun rt =>
    if rt.2.any (containsStr t) then
      some { typ := rt.1, Name := generateResourceName rt.1,
             Properties := [], Attributes := extractAttributes t rt.1 }
    else none)

/-- Engine.Parse generalised over the iteration orders of the provider
map and the category map seen by this one call; Parse is the special case
at the source-literal orders. -/
def ParseWith (provs rts : List (String × List String)) (input : List Char) :
    Option ParsedInput :=
  let t := normalizeText input
  match extractRequirements t with
  | none => none
  | some reqs =>
    some { OriginalText := t, CloudProvider := detectFrom t provs,
           Resources := extractResourcesWith rts t, Requirements := reqs,
           Intent := determineIntent t }

/-- An admissible iteration order of the provider map with azure first. -/
def cloudProvidersAzureFirst : List (String × List String) :=
  [("azure", ["azure", "microsoft", "vm", "storage", "sql"]),
   ("aws", ["aws", "amazon", "ec2", "s3", "rds", "vpc", "lambda"]),
   ("gcp", ["gcp", "google", "compute", "storage", "cloud"])]

/-- An admissible iteration order of the category map with database
first. -/
def resourceTypesDatabaseFirst : List (String × List String) :=
  [("database", ["database", "db", "rds", "sql", "mysql", "postgres",
                 "mongodb"]),
   ("compute", ["vm", "instance", "server", "compute", "ec2"]),
   ("storage", ["storage", "bucket", "s3", "blob", "disk"]),
   ("network", ["vpc", "network", "subnet", "security group", "firewall",
                "load balancer", "alb", "nlb"]),
   ("container", ["container", "kubernetes", "k8s", "docker", "ecs", "aks",
                  "gke"]),
   ("serverless", ["lambda", "function", "serverless", "azure functions",
                   "cloud functions"])]

/-! ## Security rule scanner (internal/security scanner source)

Each rule pattern of the Go source is a concatenation of string literals
and counted character classes, except SEC007 whose leading group is an
alternation of three literals; a pattern is therefore embedded as a list
of alternatives, each alternative a list of atoms.  MatchString existence
semantics is the existential over start positions and class run lengths,
which the matcher below searches exhaustively. -/

/-- One regexp atom: a string literal, or a character class repeated
between a lower and an optional upper bound. -/
inductive Atom where
  | lit : List Char → Atom
  | cls : (Char → Bool) → Nat → Option Nat → Atom

/-- Match a sequence of atoms at the head of the input (the tail may be
anything). -/
def matchHere : List Atom → List Char → Bool
  | [], _ => true
  | .lit s :: rest, cs => s.isPrefixOf cs && matchHere rest (cs.drop s.length)
  | .cls p mn mx :: rest, cs =>
    let run := (cs.takeWhile p).length
    let hi := match mx with | none => run | some m => Nat.min m run
    (List.range (hi + 1)).any (fun k => decide (mn ≤ k) && matchHere rest (cs.drop k))

/-- Match a sequence of atoms anywhere in the input. -/
def matchFrom (alt : List Atom) (cs : List Char) : Bool :=
  (List.range (cs.length + 1)).any (fun i => matchHere alt (cs.drop i))

/-- Pattern.MatchString: some alternative matches somewhere. -/
def ruleMatches (pat : List (List Atom)) (cs : List Char) : Bool :=
  pat.any (fun alt => matchFrom alt cs)

/-- Zero-or-more white space, the regexp piece written backslash-s-star. -/
def wsAtom : Atom := .cls isRegexSpace 0 none

/-- One-or-more white space, the regexp piece written backslash-s-plus. -/
def ws1Atom : Atom := .cls isRegexSpace 1 none

/-- Any character other than a newline (the regexp dot). -/
def dotStarAtom : Atom := .cls (fun c => !(c == '\n')) 0 none

/-- Go struct security.SecurityRule (the compiled regexp is replaced by its
atom form). -/
structure SecurityRule where
  ID : String
  Name : String
  Severity : String
  Pattern : List (List Atom)
  Message : String
  Remediation : String

/-- Go struct security.Issue. -/
structure Issue where
  Severity : String
  Message : String
  Resource : String
  Line : Nat
  Rule : String
  Remediation : String
deriving DecidableEq

/-- Rule SEC001 of loadDefaultRules. -/
def secRule1 : SecurityRule :=
  { ID := "SEC001", Name := "Public S3 Bucket", Severity := "HIGH",
     Pattern := [[.lit (strL "acl"), wsAtom, .lit (strL "="), wsAtom,
                  .lit (strL "\"public-read\"")]],
     Message := "S3 bucket configured with public read access",
     Remediation := "Remove public ACL and use bucket policies for controlled access" }

/-- Rule SEC002 of loadDefaultRules. -/
def secRule2 : SecurityRule :=
  { ID := "SEC002", Name := "Unencrypted Storage", Severity := "MEDIUM",
     Pattern := [[.lit (strL "resource"), ws1Atom, .lit (strL "\"aws_s3_bucket\"")]],
     Message := "S3 bucket may not have encryption enabled",
     Remediation := "Enable server-side encryption for S3 buckets" }

/-- Rule SEC003 of loadDefaultRules. -/
def secRule3 : SecurityRule :=
  { ID := "SEC003", Name := "Open Security Group", Severity := "CRITICAL",
     Pattern := [[.lit (strL "cidr_blocks"), wsAtom, .lit (strL "="), wsAtom,
                  .lit (strL "[\"0.0.0.0/0\"]")]],
     Message := "Security group allows access from anywhere (0.0.0.0/0)",
     Remediation := "Restrict CIDR blocks to specific IP ranges" }

/-- Rule SEC004 of loadDefaultRules. -/
def secRule4 : SecurityRule :=
  { ID := "SEC004", Name := "Unencrypted EBS Volume", Severity := "MEDIUM",
     Pattern := [[.lit (strL "resource"), ws1Atom, .lit (strL "\"aws_ebs_volume\"")]],
     Message := "EBS volume may not have encryption enabled",
     Remediation := "Enable encryption for EBS volumes" }

/-- Rule SEC005 of loadDefaultRules. -/
def secRule5 : SecurityRule :=
  { ID := "SEC005", Name := "Public RDS Instance", Severity := "HIGH",
     Pattern := [[.lit (strL "publicly_accessible"), wsAtom, .lit (strL "="),
                  wsAtom, .lit (strL "true")]],
     Message := "RDS instance is publicly accessible",
     Remediation := "Set publicly_accessible to false for RDS instances" }

/-- Rule SEC006 of loadDefaultRules. -/
def secRule6 : SecurityRule :=
  { ID := "SEC006", Name := "Weak Password Policy", Severity := "MEDIUM",
     Pattern := [[.lit (strL "password"), wsAtom, .lit (strL "="), wsAtom,
                  .lit (strL "\""), .cls (fun c => !(c == '"')) 1 (some 7),
                  .lit (strL "\"")]],
     Message := "Password appears to be too short",
     Remediation := "Use strong passwords with at least 8 characters" }

/-- Rule SEC007 of loadDefaultRules. -/
def secRule7 : SecurityRule :=
  { ID := "SEC007", Name := "Hardcoded Secrets", Severity := "CRITICAL",
     Pattern := [[.lit (strL "password"), wsAtom, .lit (strL "="), wsAtom,
                  .lit (strL "\""), .cls (fun c => !(c == '$')) 1 (some 1),
                  .cls (fun c => !(c == '"')) 0 none, .lit (strL "\"")],
                 [.lit (strL "secret"), wsAtom, .lit (strL "="), wsAtom,
                  .lit (strL "\""), .cls (fun c => !(c == '$')) 1 (some 1),
                  .cls (fun c => !(c == '"')) 0 none, .lit (strL "\"")],
                 [.lit (strL "key"), wsAtom, .lit (strL "="), wsAtom,
                  .lit (strL "\""), .cls (fun c => !(c == '$')) 1 (some 1),
                  .cls (fun c => !(c == '"')) 0 none, .lit (strL "\"")]],
     Message := "Potential hardcoded secret or password",
     Remediation := "Use variables or AWS Secrets Manager for sensitive data" }

/-- Rule SEC008 of loadDefaultRules. -/
def secRule8 : SecurityRule :=
  { ID := "SEC008", Name := "Missing HTTPS", Severity := "MEDIUM",
     Pattern := [[.lit (strL "protocol"), wsAtom, .lit (strL "="), wsAtom,
                  .lit (strL "\"HTTP\"")]],
     Message := "Load balancer listener using HTTP instead of HTTPS",
     Remediation := "Use HTTPS protocol for load balancer listeners" }

/-- Rule SEC009 of loadDefaultRules. -/
def secRule9 : SecurityRule :=
  { ID := "SEC009", Name := "Default VPC Usage", Severity := "LOW",
     Pattern := [[.lit (strL "default"), wsAtom, .lit (strL "="), wsAtom,
                  .lit (strL "true"), dotStarAtom, .lit (strL "vpc")]],
     Message := "Using default VPC may not follow security best practices",
     Remediation := "Create custom VPC with proper network segmentation" }

/-- Rule SEC010 of loadDefaultRules. -/
def secRule10 : SecurityRule :=
  { ID := "SEC010", Name := "Missing Backup", Severity := "MEDIUM",
     Pattern := [[.lit (strL "backup_retention_period"), wsAtom,
                  .lit (strL "="), wsAtom, .lit (strL "0")]],
     Message := "Database backup retention period is set to 0",
     Remediation := "Enable automated backups with appropriate retention period" }

/-- The rule catalog of loadDefaultRules, in source order. -/
def defaultRules : List SecurityRule :=
  [secRule1, secRule2, secRule3, secRule4, secRule5,
   secRule6, secRule7, secRule8, secRule9, secRule10]

/-- strings.Split on newline: the line list of a document. -/
def splitLines : List Char → List (List Char)
  | [] => [[]]
  | c :: cs =>
    if c = '\n' then [] :: splitLines cs
    else
      match splitLines cs with
      | [] => [[c]]
      | l :: ls => (c :: l) :: ls

/-- Attempt the resource-declaration regexp of extractResourceName at the
current position: the word resource, one-or-more spaces, a quoted nonempty
type, one-or-more spaces, a quoted nonempty name.  Both quoted groups are
forced (the class excludes the closing quote), so the match is
deterministic at a given position. -/
def resNameAt (cs : List Char) : Option String :=
  if (strL "resource").isPrefixOf cs then
    let r1 := cs.drop (strL "resource").length
    let sp1 := r1.takeWhile isRegexSpace
    if sp1.isEmpty then none else
    match r1.drop sp1.length with
    | '"' :: r2 =>
      let t := r2.takeWhile (fun c => !(c == '"'))
      if t.isEmpty then none else
      match r2.drop t.length with
      | '"' :: r3 =>
        let sp2 := r3.takeWhile isRegexSpace
        if sp2.isEmpty then none else
        match r3.drop sp2.length with
        | '"' :: r4 =>
          let n := r4.takeWhile (fun c => !(c == '"'))
          if n.isEmpty then none else
          match r4.drop n.length with
          | '"' :: _ => some (String.mk t ++ "." ++ String.mk n)
          | _ => none
        | _ => none
      | _ => none
    | _ => none
  else none

/-- Leftmost-position scan of extractResourceName; empty string when the
line is not a declaration line. -/
def extractResourceName : List Char → String
  | [] => ""
  | c :: cs =>
    match resNameAt (c :: cs) with
    | some s => s
    | none => extractResourceName cs

/-- The Issue built for one rule hit on one zero-based line index. -/
def mkIssue (r : SecurityRule) (line : List Char) (i : Nat) : Issue :=
  { Severity := r.Severity, Message := r.Message,
    Resource := extractResourceName line, Line := i + 1, Rule := r.ID,
    Remediation := r.Remediation }

/-- Findings of one line: every rule of the catalog whose pattern matches,
in catalog order. -/
def lineBlock (i : Nat) (line : List Char) : List Issue :=
  (defaultRules.filter (fun r => ruleMatches r.Pattern line)).map
    (fun r => mkIssue r line i)

/-- The line-rule phase of Scan: the Go loop over lines with a running
zero-based index. -/
def lineIssuesFrom (i : Nat) : List (List Char) → List Issue
  | [] => []
  | l :: ls => lineBlock i l ++ lineIssuesFrom (i + 1) ls

/-- performContextualScans: five whole-document presence/absence
heuristics, in source order; the Resource and Line fields of the Go
literals are left at their zero values. -/
def performContextualScans (config : List Char) : List Issue :=
  (if containsStr config "aws_s3_bucket" &&
      !(containsStr config "server_side_encryption") then
    [{ Severity := "MEDIUM",
       Message := "S3 bucket missing server-side encryption configuration",
       Resource := "", Line := 0, Rule := "SEC011",
       Remediation := "Add server_side_encryption_configuration block" }]
   else []) ++
  (if containsStr config "aws_s3_bucket" &&
      !(containsStr config "versioning") then
    [{ Severity := "LOW",
       Message := "S3 bucket missing versioning configuration",
       Resource := "", Line := 0, Rule := "SEC012",
       Remediation := "Enable versioning for S3 buckets" }]
   else []) ++
  (if containsStr config "aws_s3_bucket" &&
      !(containsStr config "mfa_delete") then
    [{ Severity := "LOW",
       Message := "S3 bucket missing MFA delete protection",
       Resource := "", Line := 0, Rule := "SEC013",
       Remediation := "Enable MFA delete for S3 buckets containing sensitive data" }]
   else []) ++
  (if containsStr config "aws_instance" &&
      !(containsStr config "security_groups") &&
      !(containsStr config "vpc_security_group_ids") then
    [{ Severity := "HIGH",
       Message := "EC2 instance missing security group configuration",
       Resource := "", Line := 0, Rule := "SEC014",
       Remediation := "Assign appropriate security groups to EC2 instances" }]
   else []) ++
  (if containsStr config "aws_db_instance" &&
      !(containsStr config "storage_encrypted") then
    [{ Severity := "MEDIUM",
       Message := "RDS instance missing storage encryption",
       Resource := "", Line := 0, Rule := "SEC015",
       Remediation := "Enable storage encryption for RDS instances" }]
   else [])

/-- Scanner.Scan: the line-rule phase over the newline-split document,
then the contextual findings appended.  The error value of the Go
signature is always nil. -/
def Scan (config : List Char) : List Issue :=
  lineIssuesFrom 0 (splitLines config) ++ performContextualScans config

/-! ## Helper lemmas -/

/-- Substring containment unfolded into an explicit decomposition. -/
theorem containsSub_iff {n h : List Char} :
    containsSub n h = true ↔ ∃ s t, h = s ++ n ++ t := by
  unfold containsSub
  rw [List.any_eq_true]
  constructor
  · rintro ⟨i, -, hp⟩
    rw [List.isPrefixOf_iff_prefix] at hp
    obtain ⟨t, ht⟩ := hp
    exact ⟨h.take i, t, by rw [List.append_assoc, ht, List.take_append_drop]⟩
  · rintro ⟨s, t, rfl⟩
    refine ⟨s.length, ?_, ?_⟩
    · simp [List.mem_range]
      omega
    · rw [List.append_assoc, List.drop_left, List.isPrefixOf_iff_prefix]
      exact List.prefix_append n t

/-- A character fails the dropped predicate at the head of a dropWhile
fixed point. -/
theorem head_false_of_dropWhile_eq_self {p : Char → Bool} {l : List Char}
    (h : l.dropWhile p = l) {a : Char} (ha : l.head? = some a) : p a = false := by
  cases l with
  | nil => simp at ha
  | cons b bs =>
    obtain rfl : b = a := by simpa using ha
    by_contra hpa
    rw [List.dropWhile_cons, if_pos (by simpa using hpa)] at h
    have hsub : List.Sublist (List.dropWhile p bs) bs := List.dropWhile_sublist p
    have := hsub.length_le
    have := congrArg List.length h
    simp at this
    omega

/-- dropWhile is the identity when the head already fails the predicate. -/
theorem dropWhile_eq_self_of_head {p : Char → Bool} {l : List Char}
    (h : ∀ a, l.head? = some a → p a = false) : l.dropWhile p = l := by
  cases l with
  | nil => rfl
  | cons b bs => rw [List.dropWhile_cons, if_neg (by simp [h b rfl])]

/-- dropWhile is idempotent. -/
theorem dropWhile_dropWhile {p : Char → Bool} {l : List Char} :
    (l.dropWhile p).dropWhile p = l.dropWhile p := by
  induction l with
  | nil => rfl
  | cons a l ih =>
    rw [List.dropWhile_cons]
    split
    · exact ih
    · rw [List.dropWhile_cons]
      simp_all

/-- Right trim of trimSpace in isolation. -/
def rtrimSp (l : List Char) : List Char :=
  (l.reverse.dropWhile isGoSpace).reverse

/-- Left-trimmed lists stay left-trimmed after a right trim. -/
theorem dropWhile_rtrimSp {l : List Char} (hl : l.dropWhile isGoSpace = l) :
    (rtrimSp l).dropWhile isGoSpace = rtrimSp l := by
  have hsuf : List.dropWhile isGoSpace l.reverse <:+ l.reverse :=
    List.dropWhile_suffix isGoSpace
  obtain ⟨u, hu⟩ := hsuf
  apply dropWhile_eq_self_of_head
  intro a ha
  have hl2 : l = (l.reverse.dropWhile isGoSpace).reverse ++ u.reverse := by
    have := congrArg List.reverse hu
    simpa [List.reverse_append] using this.symm
  apply head_false_of_dropWhile_eq_self hl
  rw [hl2, List.head?_append]
  unfold rtrimSp at ha
  rw [ha]
  rfl

/-- trimSpace is idempotent. -/
theorem trimSpace_idem {cs : List Char} :
    trimSpace (trimSpace cs) = trimSpace cs := by
  show rtrimSp ((rtrimSp (cs.dropWhile isGoSpace)).dropWhile isGoSpace)
      = rtrimSp (cs.dropWhile isGoSpace)
  rw [dropWhile_rtrimSp dropWhile_dropWhile]
  unfold rtrimSp
  rw [List.reverse_reverse, dropWhile_dropWhile]

/-- toNat of the lower-cased character in the uppercase range. -/
theorem toNat_toLowerCh_of {c : Char} (h : 65 ≤ c.toNat ∧ c.toNat ≤ 90) :
    (toLowerCh c).toNat = c.toNat + 32 := by
  simp [toLowerCh, h]
  rfl

/-- toLowerCh keeps characters outside the uppercase range. -/
theorem toLowerCh_eq_self {c : Char} (h : ¬(65 ≤ c.toNat ∧ c.toNat ≤ 90)) :
    toLowerCh c = c := by
  simp [toLowerCh, h]

/-- toLowerCh is idempotent. -/
theorem toLowerCh_toLowerCh (c : Char) :
    toLowerCh (toLowerCh c) = toLowerCh c := by
  by_cases h : 65 ≤ c.toNat ∧ c.toNat ≤ 90
  · have h2 := toNat_toLowerCh_of h
    exact toLowerCh_eq_self (by omega)
  · rw [toLowerCh_eq_self h, toLowerCh_eq_self h]

/-- toLowerCh does not change white-space classification. -/
theorem isGoSpace_toLowerCh (c : Char) :
    isGoSpace (toLowerCh c) = isGoSpace c := by
  by_cases h : 65 ≤ c.toNat ∧ c.toNat ≤ 90
  · have h2 := toNat_toLowerCh_of h
    have hl : isGoSpace (toLowerCh c) = false := by
      simp [isGoSpace, h2]
      omega
    have hr : isGoSpace c = false := by
      simp [isGoSpace]
      omega
    rw [hl, hr]
  · rw [toLowerCh_eq_self h]

/-- dropWhile commutes with mapping toLowerCh. -/
theorem dropWhile_map_toLowerCh (l : List Char) :
    (l.map toLowerCh).dropWhile isGoSpace = (l.dropWhile isGoSpace).map toLowerCh := by
  induction l with
  | nil => rfl
  | cons a l ih =>
    rw [List.map_cons, List.dropWhile_cons, List.dropWhile_cons,
        isGoSpace_toLowerCh]
    split
    · exact ih
    · rw [List.map_cons]

/-- trimSpace commutes with mapping toLowerCh. -/
theorem trimSpace_map_toLowerCh (l : List Char) :
    trimSpace (l.map toLowerCh) = (trimSpace l).map toLowerCh := by
  unfold trimSpace
  rw [dropWhile_map_toLowerCh, ← List.map_reverse, dropWhile_map_toLowerCh,
      ← List.map_reverse]

/-- Normalisation is stable: a second pass changes nothing. -/
theorem normalizeText_idem (cs : List Char) :
    normalizeText (normalizeText cs) = normalizeText cs := by
  unfold normalizeText
  rw [trimSpace_map_toLowerCh, trimSpace_idem, List.map_map]
  exact List.map_congr_left (fun a _ => toLowerCh_toLowerCh a)

/-- Field shape of a successful Parse. -/
theorem parse_fields {input : List Char} {r : ParsedInput}
    (h : Parse input = some r) :
    r.OriginalText = normalizeText input ∧
    r.CloudProvider = detectCloudProvider (normalizeText input) ∧
    r.Resources = extractResources (normalizeText input) ∧
    r.Intent = determineIntent (normalizeText input) := by
  cases hE : extractRequirements (normalizeText input) with
  | none =>
    simp only [Parse, hE] at h
    exact absurd h (by simp)
  | some reqs =>
    simp only [Parse, hE] at h
    injection h with h2
    subst h2
    exact ⟨rfl, rfl, rfl, rfl⟩

/-- A literal atom consumes exactly itself. -/
theorem matchHere_lit_append (s t : List Char) (rest : List Atom)
    (h : matchHere rest t = true) :
    matchHere (Atom.lit s :: rest) (s ++ t) = true := by
  simp only [matchHere]
  rw [List.drop_left]
  simp [List.isPrefixOf_iff_prefix, List.prefix_append, h]

/-- A zero-or-more white-space atom may consume one space character. -/
theorem matchHere_ws_cons (c : Char) (t : List Char) (rest : List Atom)
    (hc : isRegexSpace c = true) (h : matchHere rest t = true) :
    matchHere (wsAtom :: rest) (c :: t) = true := by
  show matchHere (Atom.cls isRegexSpace 0 none :: rest) (c :: t) = true
  simp only [matchHere]
  apply List.any_eq_true.mpr
  refine ⟨1, ?_, ?_⟩
  · rw [List.mem_range]
    rw [List.takeWhile_cons, if_pos hc]
    simp
  · simp [h]

/-- The SEC003 pattern matches at the head of any text starting with the
literal open-CIDR configuration line fragment. -/
theorem matchHere_sec003 (t : List Char) :
    matchHere [Atom.lit (strL "cidr_blocks"), wsAtom, Atom.lit (strL "="),
               wsAtom, Atom.lit (strL "[\"0.0.0.0/0\"]")]
      (strL "cidr_blocks = [\"0.0.0.0/0\"]" ++ t) = true := by
  have e : strL "cidr_blocks = [\"0.0.0.0/0\"]" ++ t
      = strL "cidr_blocks" ++
          (' ' :: (strL "=" ++ (' ' :: (strL "[\"0.0.0.0/0\"]" ++ t)))) := by
    have e0 : strL "cidr_blocks = [\"0.0.0.0/0\"]"
        = strL "cidr_blocks" ++ (' ' :: (strL "=" ++ (' ' :: strL "[\"0.0.0.0/0\"]"))) := by
      decide
    rw [e0]
    simp [List.append_assoc]
  rw [e]
  apply matchHere_lit_append
  apply matchHere_ws_cons _ _ _ (by decide)
  apply matchHere_lit_append
  apply matchHere_ws_cons _ _ _ (by decide)
  apply matchHere_lit_append
  rfl

/-- A rule hit on the i-th line puts the corresponding Issue into the
line-rule phase. -/
theorem mem_lineIssuesFrom (r : SecurityRule) (hr : r ∈ defaultRules)
    (ls : List (List Char)) :
    ∀ (base i : Nat) (l : List Char), ls[i]? = some l →
      ruleMatches r.Pattern l = true →
      mkIssue r l (base + i) ∈ lineIssuesFrom base ls := by
  induction ls with
  | nil =>
    intro base i l hl
    simp at hl
  | cons l0 ls ih =>
    intro base i l hl hm
    cases i with
    | zero =>
      obtain rfl : l0 = l := by simpa using hl
      rw [Nat.add_zero]
      apply List.mem_append_left
      unfold lineBlock
      exact List.mem_map.mpr ⟨r, List.mem_filter.mpr ⟨hr, hm⟩, rfl⟩
    | succ j =>
      have hl2 : ls[j]? = some l := by simpa using hl
      have harith : base + (j + 1) = base + 1 + j := by omega
      rw [harith]
      exact List.mem_append_right _ (ih (base + 1) j l hl2 hm)

/-- C4: every document with a line containing the literal text
cidr_blocks = ["0.0.0.0/0"] receives at least one SEC003 finding carrying
that line's 1-indexed number. -/
theorem scan_reports_sec003_open_cidr (doc : List Char) (i : Nat)
    (l : List Char) (hl : (splitLines doc)[i]? = some l)
    (hc : containsStr l "cidr_blocks = [\"0.0.0.0/0\"]" = true) :
    ∃ f ∈ Scan doc, f.Rule = "SEC003" ∧ f.Line = i + 1 := by
  obtain ⟨s, t, rfl⟩ := containsSub_iff.mp hc
  have hm : ruleMatches secRule3.Pattern (s ++ strL "cidr_blocks = [\"0.0.0.0/0\"]" ++ t) = true := by
    show (List.any [_] _) = true
    apply List.any_eq_true.mpr
    refine ⟨_, List.mem_cons_self _ _, ?_⟩
    unfold matchFrom
    apply List.any_eq_true.mpr
    refine ⟨s.length, ?_, ?_⟩
    · rw [List.mem_range]
      simp
      omega
    · rw [List.append_assoc, List.drop_left]
      exact matchHere_sec003 t
  refine ⟨mkIssue secRule3 (s ++ strL "cidr_blocks = [\"0.0.0.0/0\"]" ++ t) i,
    ?_, rfl, rfl⟩
  apply List.mem_append_left
  have := mem_lineIssuesFrom secRule3 (by simp [defaultRules])
    (splitLines doc) 0 i _ hl hm
  simpa using this

/-- Witness for C4 at a concrete two-line document. -/
theorem scan_reports_sec003_open_cidr_witness :
    ∃ f ∈ Scan (strL "a\ncidr_blocks = [\"0.0.0.0/0\"]"),
      f.Rule = "SEC003" ∧ f.Line = 2 :=
  scan_reports_sec003_open_cidr (strL "a\ncidr_blocks = [\"0.0.0.0/0\"]") 1
    (strL "cidr_blocks = [\"0.0.0.0/0\"]") (by rfl) (by decide)

/-- Membership in a conditional singleton forces equality. -/
theorem eq_of_mem_if_singleton {α : Type} {c : Prop} [Decidable c] {f x : α}
    (h : f ∈ if c then [x] else ([] : List α)) : f = x := by
  split at h
  · simpa using h
  · simp at h

/-- Shape of every finding of the contextual phase: line zero, empty
resource reference, rule id among SEC011..SEC015. -/
theorem ctx_fields {doc : List Char} {f : Issue}
    (h : f ∈ performContextualScans doc) :
    f.Line = 0 ∧ f.Resource = "" ∧
      f.Rule ∈ (["SEC011", "SEC012", "SEC013", "SEC014", "SEC015"] : List String) := by
  unfold performContextualScans at h
  simp only [List.mem_append] at h
  rcases h with ((((h | h) | h) | h) | h) <;>
    · rw [eq_of_mem_if_singleton h]
      exact ⟨rfl, rfl, by simp⟩

/-- C9: every contextual (document-level) finding of a scan has line
number 0, an empty resource reference, and a rule id among SEC011 through
SEC015; the contextual findings form the tail segment of the scan output. -/
theorem contextual_findings_shape (doc : List Char) :
    (∃ lp, Scan doc = lp ++ performContextualScans doc) ∧
    ∀ f ∈ performContextualScans doc,
      f.Line = 0 ∧ f.Resource = "" ∧
        f.Rule ∈ (["SEC011", "SEC012", "SEC013", "SEC014", "SEC015"] : List String) :=
  ⟨⟨lineIssuesFrom 0 (splitLines doc), rfl⟩, fun _ h => ctx_fields h⟩

/-- Witness for C9 at a concrete document that triggers SEC011. -/
theorem contextual_findings_shape_witness :
    ({ Severity := "MEDIUM",
       Message := "S3 bucket missing server-side encryption configuration",
       Resource := "", Line := 0, Rule := "SEC011",
       Remediation := "Add server_side_encryption_configuration block" } : Issue).Line = 0 ∧
    ({ Severity := "MEDIUM",
       Message := "S3 bucket missing server-side encryption configuration",
       Resource := "", Line := 0, Rule := "SEC011",
       Remediation := "Add server_side_encryption_configuration block" } : Issue).Resource = "" ∧
    ({ Severity := "MEDIUM",
       Message := "S3 bucket missing server-side encryption configuration",
       Resource := "", Line := 0, Rule := "SEC011",
       Remediation := "Add server_side_encryption_configuration block" } : Issue).Rule ∈
      (["SEC011", "SEC012", "SEC013", "SEC014", "SEC015"] : List String) :=
  (contextual_findings_shape (strL "aws_s3_bucket")).2 _ (by decide)

/-- Every finding of one line block carries that line's 1-indexed number. -/
theorem line_of_mem_lineBlock {f : Issue} {i : Nat} {l : List Char}
    (h : f ∈ lineBlock i l) : f.Line = i + 1 := by
  unfold lineBlock at h
  obtain ⟨r, -, rfl⟩ := List.mem_map.mp h
  rfl

/-- Every finding of the line-rule phase has a line number past the
running index. -/
theorem line_of_mem_lineIssuesFrom {f : Issue} (ls : List (List Char)) :
    ∀ base, f ∈ lineIssuesFrom base ls → base + 1 ≤ f.Line := by
  induction ls with
  | nil => intro base h; simp [lineIssuesFrom] at h
  | cons l0 ls ih =>
    intro base h
    rcases List.mem_append.mp h with h | h
    · rw [line_of_mem_lineBlock h]
    · have := ih (base + 1) h
      omega

/-- The line-rule phase lists findings in ascending line order. -/
theorem pairwise_lineIssuesFrom (ls : List (List Char)) :
    ∀ base, (lineIssuesFrom base ls).Pairwise (fun a b => a.Line ≤ b.Line) := by
  induction ls with
  | nil => intro base; exact List.Pairwise.nil
  | cons l0 ls ih =>
    intro base
    rw [lineIssuesFrom, List.pairwise_append]
    refine ⟨?_, ih (base + 1), ?_⟩
    · apply List.pairwise_of_forall_mem_list
      intro a ha b hb
      rw [line_of_mem_lineBlock ha, line_of_mem_lineBlock hb]
    · intro a ha b hb
      rw [line_of_mem_lineBlock ha]
      have := line_of_mem_lineIssuesFrom ls (base + 1) hb
      omega

/-- Filtering the line-rule phase by a line number recovers exactly that
line's block. -/
theorem filter_lineIssuesFrom (ls : List (List Char)) :
    ∀ (base i : Nat) (l : List Char), ls[i]? = some l →
      (lineIssuesFrom base ls).filter (fun f => f.Line == base + i + 1)
        = lineBlock (base + i) l := by
  induction ls with
  | nil =>
    intro base i l hl
    simp at hl
  | cons l0 ls ih =>
    intro base i l hl
    cases i with
    | zero =>
      obtain rfl : l0 = l := by simpa using hl
      rw [lineIssuesFrom, List.filter_append, Nat.add_zero]
      have h1 : (lineBlock base l0).filter (fun f => f.Line == base + 1)
          = lineBlock base l0 := by
        apply List.filter_eq_self.mpr
        intro f hf
        simp [line_of_mem_lineBlock hf]
      have h2 : (lineIssuesFrom (base + 1) ls).filter (fun f => f.Line == base + 1)
          = [] := by
        apply List.filter_eq_nil_iff.mpr
        intro f hf
        have := line_of_mem_lineIssuesFrom ls (base + 1) hf
        simp only [beq_iff_eq]
        omega
      rw [h1, h2, List.append_nil, Nat.add_zero]
    | succ j =>
      have hl2 : ls[j]? = some l := by simpa using hl
      rw [lineIssuesFrom, List.filter_append]
      have h1 : (lineBlock base l0).filter (fun f => f.Line == base + (j + 1) + 1)
          = [] := by
        apply List.filter_eq_nil_iff.mpr
        intro f hf
        have := line_of_mem_lineBlock hf
        simp only [beq_iff_eq]
        omega
      have harith : base + (j + 1) = base + 1 + j := by omega
      rw [h1, List.nil_append, harith, ih (base + 1) j l hl2]

/-- C6: in every scan result the line findings precede the contextual
findings; line findings come in ascending line order; and for each line
the findings' rule ids are exactly the ids of the catalog rules matching
that line, in catalog order, one finding per matching rule and one block
per occurrence line. -/
theorem scan_ordering_and_catalog_order (doc : List Char) :
    (∃ k, (∀ f ∈ (Scan doc).take k, 1 ≤ f.Line) ∧
          (∀ f ∈ (Scan doc).drop k, f.Line = 0) ∧
          ((Scan doc).take k).Pairwise (fun a b => a.Line ≤ b.Line)) ∧
    ∀ (i : Nat) (l : List Char), (splitLines doc)[i]? = some l →
      ((Scan doc).filter (fun f => f.Line == i + 1)).map Issue.Rule =
        (defaultRules.filter (fun r => ruleMatches r.Pattern l)).map SecurityRule.ID := by
  have hs : Scan doc
      = lineIssuesFrom 0 (splitLines doc) ++ performContextualScans doc := rfl
  constructor
  · refine ⟨(lineIssuesFrom 0 (splitLines doc)).length, ?_, ?_, ?_⟩
    · intro f hf
      rw [hs, List.take_left] at hf
      exact line_of_mem_lineIssuesFrom _ 0 hf
    · intro f hf
      rw [hs, List.drop_left] at hf
      exact (ctx_fields hf).1
    · rw [hs, List.take_left]
      exact pairwise_lineIssuesFrom _ 0
  · intro i l hl
    rw [hs, List.filter_append]
    have hctx : (performContextualScans doc).filter (fun f => f.Line == i + 1)
        = [] := by
      apply List.filter_eq_nil_iff.mpr
      intro f hf
      have := (ctx_fields hf).1
      simp only [beq_iff_eq]
      omega
    have hfl := filter_lineIssuesFrom (splitLines doc) 0 i l hl
    simp only [Nat.zero_add] at hfl
    rw [hctx, hfl, List.append_nil]
    unfold lineBlock
    rw [List.map_map]
    exact List.map_congr_left (fun r _ => rfl)

/-- Witness for C6 at a concrete two-line document whose second line hits
SEC006 and SEC007. -/
theorem scan_ordering_and_catalog_order_witness :
    ((Scan (strL "x\npassword = \"abc\"")).filter
        (fun f => f.Line == 1 + 1)).map Issue.Rule =
      (defaultRules.filter
        (fun r => ruleMatches r.Pattern (strL "password = \"abc\""))).map
          SecurityRule.ID :=
  (scan_ordering_and_catalog_order (strL "x\npassword = \"abc\"")).2 1
    (strL "password = \"abc\"") (by rfl)

/-- detectFrom answers the default when no table entry matches, and the
unique matching entry when exactly one does. -/
theorem detectFrom_spec (t : List Char) (L : List (String × List String)) :
    ((L.filter (fun pr => pr.2.any (containsStr t))).map Prod.fst = [] →
      detectFrom t L = "aws") ∧
    ∀ p, (L.filter (fun pr => pr.2.any (containsStr t))).map Prod.fst = [p] →
      detectFrom t L = p := by
  induction L with
  | nil => exact ⟨fun _ => rfl, fun p hp => by simp at hp⟩
  | cons pr rest ih =>
    obtain ⟨name, kws⟩ := pr
    by_cases h : kws.any (containsStr t) = true
    · constructor
      · intro hnil
        rw [List.filter_cons_of_pos (by simpa using h)] at hnil
        simp at hnil
      · intro p hp
        rw [List.filter_cons_of_pos (by simpa using h)] at hp
        simp only [List.map_cons, List.cons.injEq] at hp
        show (if kws.any (containsStr t) then name else detectFrom t rest) = p
        rw [if_pos h]
        exact hp.1
    · have hskip : (((name, kws) :: rest).filter
          (fun pr => pr.2.any (containsStr t)))
          = rest.filter (fun pr => pr.2.any (containsStr t)) :=
        List.filter_cons_of_neg (by simpa using h)
      have hd : detectFrom t ((name, kws) :: rest) = detectFrom t rest := by
        show (if kws.any (containsStr t) then name else detectFrom t rest) = _
        rw [if_neg h]
      constructor
      · intro hnil
        rw [hskip] at hnil
        rw [hd]
        exact ih.1 hnil
      · intro p hp
        rw [hskip] at hp
        rw [hd]
        exact ih.2 p hp

/-- C3: when the normalised input contains keywords of exactly one
provider of the taxonomy, parse reports that provider; when it contains no
provider keyword at all, parse reports the default aws. -/
theorem provider_detection_unique_match (input : List Char) :
    (∀ p, matchingProviders (normalizeText input) = [p] →
      detectCloudProvider (normalizeText input) = p ∧
      ∀ r, Parse input = some r → r.CloudProvider = p) ∧
    (matchingProviders (normalizeText input) = [] →
      detectCloudProvider (normalizeText input) = "aws" ∧
      ∀ r, Parse input = some r → r.CloudProvider = "aws") := by
  have hspec := detectFrom_spec (normalizeText input) cloudProviders
  constructor
  · intro p hp
    have hd : detectCloudProvider (normalizeText input) = p := hspec.2 p hp
    exact ⟨hd, fun r hr => by rw [(parse_fields hr).2.1, hd]⟩
  · intro hp
    have hd : detectCloudProvider (normalizeText input) = "aws" := hspec.1 hp
    exact ⟨hd, fun r hr => by rw [(parse_fields hr).2.1, hd]⟩

/-- Witness for C3 at an input matching only the azure keyword list. -/
theorem provider_detection_unique_match_witness :
    detectCloudProvider (normalizeText (strL "i want azure")) = "azure" :=
  ((provider_detection_unique_match (strL "i want azure")).1 "azure"
    (by decide)).1

/-- C7: a successful parse never reports the same resource category twice,
and reports at most as many resources as there are categories (six). -/
theorem resources_no_duplicate_categories (input : List Char)
    (r : ParsedInput) (h : Parse input = some r) :
    r.Resources.Pairwise (fun a b => a.typ ≠ b.typ) ∧
    r.Resources.length ≤ resourceTypes.length ∧ resourceTypes.length = 6 := by
  have hres := (parse_fields h).2.2.1
  refine ⟨?_, ?_, rfl⟩
  · rw [hres]
    unfold extractResources
    refine @List.Pairwise.filterMap Resource (String × List String)
      (fun a b => a.1 ≠ b.1) (fun a b => a.typ ≠ b.typ) _ ?_ resourceTypes ?_
    · intro a a2 hR b hb b2 hb2
      have hba : b.typ = a.1 := by
        split at hb
        · obtain rfl : _ = b := by simpa using hb
          rfl
        · simp at hb
      have hba2 : b2.typ = a2.1 := by
        split at hb2
        · obtain rfl : _ = b2 := by simpa using hb2
          rfl
        · simp at hb2
      rw [hba, hba2]
      exact hR
    · show resourceTypes.Pairwise (fun a b => a.1 ≠ b.1)
      decide
  · rw [hres]
    exact List.length_filterMap_le _ _

/-- Witness for C7 at a concrete successful parse. -/
theorem resources_no_duplicate_categories_witness :
    ([{ typ := "compute", Name := "main_instance", Properties := [],
        Attributes := [] }] : List Resource).Pairwise
      (fun a b => a.typ ≠ b.typ) ∧
    ([{ typ := "compute", Name := "main_instance", Properties := [],
        Attributes := [] }] : List Resource).length ≤ resourceTypes.length ∧
    resourceTypes.length = 6 :=
  resources_no_duplicate_categories (strL "deploy vm")
    { OriginalText := strL "deploy vm", CloudProvider := "azure",
      Resources := [{ typ := "compute", Name := "main_instance",
                      Properties := [], Attributes := [] }],
      Requirements := [], Intent := "create" } (by rfl)

/-- C10: resources of category storage, container or serverless always
carry an empty attribute list; a nonempty attribute list forces category
compute, network or database. -/
theorem attributes_only_for_attribute_categories (input : List Char)
    (p : ParsedInput) (h : Parse input = some p) :
    ∀ r ∈ p.Resources,
      ((r.typ = "storage" ∨ r.typ = "container" ∨ r.typ = "serverless") →
        r.Attributes = []) ∧
      (r.Attributes ≠ [] →
        (r.typ = "compute" ∨ r.typ = "network" ∨ r.typ = "database")) := by
  intro r hr
  rw [(parse_fields h).2.2.1] at hr
  unfold extractResources at hr
  obtain ⟨a, ha, hfa⟩ := List.mem_filterMap.mp hr
  have hra : r = Resource.mk a.1 (generateResourceName a.1) []
      (extractAttributes (normalizeText input) a.1) := by
    split at hfa
    · exact (Option.some.inj hfa).symm
    · simp at hfa
  simp only [resourceTypes, List.mem_cons, List.not_mem_nil, or_false] at ha
  rcases ha with rfl | rfl | rfl | rfl | rfl | rfl <;> subst hra <;>
    refine ⟨fun hd => ?_, fun hne => ?_⟩
  · rcases hd with hd | hd | hd <;> simp at hd
  · exact Or.inl rfl
  · rfl
  · exact absurd rfl hne
  · rcases hd with hd | hd | hd <;> simp at hd
  · exact Or.inr (Or.inl rfl)
  · rcases hd with hd | hd | hd <;> simp at hd
  · exact Or.inr (Or.inr rfl)
  · rfl
  · exact absurd rfl hne
  · rfl
  · exact absurd rfl hne

/-- Witness for C10 at a parse producing a database resource with an
engine attribute. -/
theorem attributes_only_for_attribute_categories_witness :
    ({ typ := "database", Name := "main_database", Properties := [],
       Attributes := ["engine:mysql"] } : Resource).typ = "compute" ∨
    ({ typ := "database", Name := "main_database", Properties := [],
       Attributes := ["engine:mysql"] } : Resource).typ = "network" ∨
    ({ typ := "database", Name := "main_database", Properties := [],
       Attributes := ["engine:mysql"] } : Resource).typ = "database" :=
  (attributes_only_for_attribute_categories (strL "mysql")
    { OriginalText := strL "mysql", CloudProvider := "azure",
      Resources := [{ typ := "database", Name := "main_database",
                      Properties := [], Attributes := ["engine:mysql"] }],
      Requirements := [], Intent := "create" } (by rfl)
    { typ := "database", Name := "main_database", Properties := [],
      Attributes := ["engine:mysql"] } (by simp)).2 (by simp)

/-- C1: the claim says parse is total and every submatch index stays in
bounds; on the input 4 cpu the second numeric pattern produces a
three-entry submatch list, the guard admits it, and reading entry 3 is out
of range, so the Go code aborts instead of returning a record. -/
theorem parse_aborts_on_two_group_numeric :
    Parse (strL "4 cpu") = none := by
  rfl

/-- C2: on the spec scenario input the code returns the taxonomy key gcp
as provider (the spec and the repository test expect google) together with
a compute resource. -/
theorem parse_gcp_scenario_eval :
    Parse (strL "Deploy Google Cloud compute instances") =
      some { OriginalText := strL "deploy google cloud compute instances",
             CloudProvider := "gcp",
             Resources := [{ typ := "compute", Name := "main_instance",
                             Properties := [], Attributes := [] }],
             Requirements := [], Intent := "create" } := by
  rfl

/-- Full evaluation of the scanner on the single-line public-bucket
document of the specification scenario. -/
theorem scan_public_bucket_eval :
    Scan (strL "resource \"aws_s3_bucket\" \"data\" \x7b acl = \"public-read\" \x7d") =
      [{ Severity := "HIGH", Message := "S3 bucket configured with public read access",
         Resource := "aws_s3_bucket.data", Line := 1, Rule := "SEC001",
         Remediation := "Remove public ACL and use bucket policies for controlled access" },
       { Severity := "MEDIUM", Message := "S3 bucket may not have encryption enabled",
         Resource := "aws_s3_bucket.data", Line := 1, Rule := "SEC002",
         Remediation := "Enable server-side encryption for S3 buckets" },
       { Severity := "MEDIUM",
         Message := "S3 bucket missing server-side encryption configuration",
         Resource := "", Line := 0, Rule := "SEC011",
         Remediation := "Add server_side_encryption_configuration block" },
       { Severity := "LOW", Message := "S3 bucket missing versioning configuration",
         Resource := "", Line := 0, Rule := "SEC012",
         Remediation := "Enable versioning for S3 buckets" },
       { Severity := "LOW", Message := "S3 bucket missing MFA delete protection",
         Resource := "", Line := 0, Rule := "SEC013",
         Remediation := "Enable MFA delete for S3 buckets containing sensitive data" }] := by
  rfl

/-- C5: scanning the one-line public-bucket document yields a SEC001
finding on line 1 with resource reference aws_s3_bucket.data, and
document-level findings for the missing server-side-encryption marker
(SEC011), the missing versioning marker (SEC012) and the missing
MFA-delete marker (SEC013). -/
theorem scan_public_bucket_scenario :
    (∃ f ∈ Scan (strL "resource \"aws_s3_bucket\" \"data\" \x7b acl = \"public-read\" \x7d"),
      f.Rule = "SEC001" ∧ f.Line = 1 ∧ f.Resource = "aws_s3_bucket.data") ∧
    (∃ f ∈ Scan (strL "resource \"aws_s3_bucket\" \"data\" \x7b acl = \"public-read\" \x7d"),
      f.Rule = "SEC011" ∧ f.Line = 0) ∧
    (∃ f ∈ Scan (strL "resource \"aws_s3_bucket\" \"data\" \x7b acl = \"public-read\" \x7d"),
      f.Rule = "SEC012" ∧ f.Line = 0) ∧
    (∃ f ∈ Scan (strL "resource \"aws_s3_bucket\" \"data\" \x7b acl = \"public-read\" \x7d"),
      f.Rule = "SEC013" ∧ f.Line = 0) := by
  rw [scan_public_bucket_eval]
  decide

/-- The deterministic Parse is ParseWith at the source-literal table
orders. -/
theorem parse_eq_parseWith (input : List Char) :
    Parse input = ParseWith cloudProviders resourceTypes input := rfl

/-- Field shape of a successful ParseWith. -/
theorem parseWith_fields {provs rts : List (String × List String)}
    {input : List Char} {r : ParsedInput}
    (h : ParseWith provs rts input = some r) :
    r.OriginalText = normalizeText input ∧
    r.CloudProvider = detectFrom (normalizeText input) provs ∧
    r.Resources = extractResourcesWith rts (normalizeText input) ∧
    r.Intent = determineIntent (normalizeText input) := by
  cases hE : extractRequirements (normalizeText input) with
  | none =>
    simp only [ParseWith, hE] at h
    exact absurd h (by simp)
  | some reqs =>
    simp only [ParseWith, hE] at h
    injection h with h2
    subst h2
    exact ⟨rfl, rfl, rfl, rfl⟩

/-- C8 counterexample: the claim as stated is false for the program,
whose two parse calls may iterate the taxonomy maps in different orders.
On azure amazon the re-parse can flip cloudProvider from aws to azure; on
vpc mysql it can reverse the resources sequence.  Both alternative orders
are permutations of the same map entries, hence admissible iterations. -/
theorem parse_reparse_order_counterexample :
    cloudProvidersAzureFirst.Perm cloudProviders ∧
    resourceTypesDatabaseFirst.Perm resourceTypes ∧
    (∃ p q, ParseWith cloudProviders resourceTypes (strL "azure amazon") = some p ∧
      ParseWith cloudProvidersAzureFirst resourceTypes p.OriginalText = some q ∧
      p.CloudProvider = "aws" ∧ q.CloudProvider = "azure" ∧
      ¬ q.CloudProvider = p.CloudProvider) ∧
    (∃ p q, ParseWith cloudProviders resourceTypes (strL "vpc mysql") = some p ∧
      ParseWith cloudProviders resourceTypesDatabaseFirst p.OriginalText = some q ∧
      q.Resources.Perm p.Resources ∧ ¬ q.Resources = p.Resources) := by
  refine ⟨by decide, by decide, ?_, ?_⟩
  · exact ⟨{ OriginalText := strL "azure amazon", CloudProvider := "aws",
             Resources := [], Requirements := [], Intent := "create" },
           { OriginalText := strL "azure amazon", CloudProvider := "azure",
             Resources := [], Requirements := [], Intent := "create" },
           by rfl, by rfl, rfl, rfl, by decide⟩
  · exact ⟨{ OriginalText := strL "vpc mysql", CloudProvider := "aws",
             Resources := [{ typ := "network", Name := "main_network",
                             Properties := [], Attributes := [] },
                           { typ := "database", Name := "main_database",
                             Properties := [], Attributes := ["engine:mysql"] }],
             Requirements := [], Intent := "create" },
           { OriginalText := strL "vpc mysql", CloudProvider := "aws",
             Resources := [{ typ := "database", Name := "main_database",
                             Properties := [], Attributes := ["engine:mysql"] },
                           { typ := "network", Name := "main_network",
                             Properties := [], Attributes := [] }],
             Requirements := [], Intent := "create" },
           by rfl, by rfl, by decide, by decide⟩

/-- C8 as amended: for any admissible map-iteration orders of the two
calls, re-parsing the stored normalised text of a successful parse keeps
the intent, keeps the resources up to order (a permutation with identical
per-category entries), and keeps the cloudProvider whenever the
normalised input matches keywords of at most one provider; when both
calls see identical orders, cloudProvider and the resources sequence are
exactly equal (normalisation is stable). -/
theorem parse_reparse_stable_fields
    (provs1 provs2 rts1 rts2 : List (String × List String))
    (hp1 : provs1.Perm cloudProviders) (hp2 : provs2.Perm cloudProviders)
    (hr1 : rts1.Perm resourceTypes) (hr2 : rts2.Perm resourceTypes)
    (input : List Char) (p q : ParsedInput)
    (h1 : ParseWith provs1 rts1 input = some p)
    (h2 : ParseWith provs2 rts2 p.OriginalText = some q) :
    q.Intent = p.Intent ∧
    q.Resources.Perm p.Resources ∧
    (matchingProviders (normalizeText input) = [] →
      q.CloudProvider = p.CloudProvider) ∧
    (∀ pr, matchingProviders (normalizeText input) = [pr] →
      q.CloudProvider = p.CloudProvider) ∧
    (provs1 = provs2 → q.CloudProvider = p.CloudProvider) ∧
    (rts1 = rts2 → q.Resources = p.Resources) := by
  have f1 := parseWith_fields h1
  have hnn : normalizeText p.OriginalText = normalizeText input := by
    rw [f1.1, normalizeText_idem]
  have f2 := parseWith_fields h2
  rw [hnn] at f2
  have key : ∀ provs : List (String × List String), provs.Perm cloudProviders →
      ((provs.filter
          (fun pr => pr.2.any (containsStr (normalizeText input)))).map
            Prod.fst).Perm (matchingProviders (normalizeText input)) :=
    fun provs hp => List.Perm.map _ (List.Perm.filter _ hp)
  refine ⟨?_, ?_, ?_, ?_, ?_, ?_⟩
  · rw [f2.2.2.2, f1.2.2.2]
  · rw [f2.2.2.1, f1.2.2.1]
    exact List.Perm.filterMap _ (hr2.trans hr1.symm)
  · intro hnil
    have k1 := key provs1 hp1
    have k2 := key provs2 hp2
    rw [hnil, List.perm_nil] at k1 k2
    rw [f2.2.1, f1.2.1,
        (detectFrom_spec (normalizeText input) provs1).1 k1,
        (detectFrom_spec (normalizeText input) provs2).1 k2]
  · intro pr hone
    have k1 := key provs1 hp1
    have k2 := key provs2 hp2
    rw [hone, List.perm_singleton] at k1 k2
    rw [f2.2.1, f1.2.1,
        (detectFrom_spec (normalizeText input) provs1).2 pr k1,
        (detectFrom_spec (normalizeText input) provs2).2 pr k2]
  · intro hpe
    subst hpe
    rw [f2.2.1, f1.2.1]
  · intro hre
    subst hre
    rw [f2.2.2.1, f1.2.2.1]

/-- Witness for the amended C8: re-parsing vpc mysql with the category
table iterated database-first permutes the two resources. -/
theorem parse_reparse_stable_fields_witness :
    ([{ typ := "database", Name := "main_database", Properties := [],
        Attributes := ["engine:mysql"] },
      { typ := "network", Name := "main_network", Properties := [],
        Attributes := [] }] : List Resource).Perm
      [{ typ := "network", Name := "main_network", Properties := [],
         Attributes := [] },
       { typ := "database", Name := "main_database", Properties := [],
         Attributes := ["engine:mysql"] }] :=
  (parse_reparse_stable_fields cloudProviders cloudProviders
    resourceTypes resourceTypesDatabaseFirst
    (List.Perm.refl _) (List.Perm.refl _) (List.Perm.refl _) (by decide)
    (strL "vpc mysql")
    { OriginalText := strL "vpc mysql", CloudProvider := "aws",
      Resources := [{ typ := "network", Name := "main_network",
                      Properties := [], Attributes := [] },
                    { typ := "database", Name := "main_database",
                      Properties := [], Attributes := ["engine:mysql"] }],
      Requirements := [], Intent := "create" }
    { OriginalText := strL "vpc mysql", CloudProvider := "aws",
      Resources := [{ typ := "database", Name := "main_database",
                      Properties := [], Attributes := ["engine:mysql"] },
                    { typ := "network", Name := "main_network",
                      Properties := [], Attributes := [] }],
      Requirements := [], Intent := "create" }
    (by rfl) (by rfl)).2.1
